import Mathlib

/-!
Verification of the accounting-and-reminder engine of the Activity Tracker
application (src/Activity_Tracker.py).

The Python source is shallowly embedded: times and durations (Python floats)
become rationals, the `defaultdict(float)` of per-application durations
becomes an insertion-ordered association list with a total lookup defaulting
to 0, the in-memory event log becomes a list, and each method of
`ActivityTracker`, `SettingsManager` and `PopupManager` becomes a pure
function on an explicit state.
-/

/-- One entry of `daily_logs`: the dict appended by `track_activity`. -/
structure LogEvent where
  timestamp : ℚ
  app_name : String
  window_title : String
  action : String
deriving DecidableEq

/-- The mutable state of `ActivityTracker` (fields set in `__init__`).
`activities` is an insertion-ordered association list mirroring
`defaultdict(float)`; `current_activity` is `Optional[str]`. -/
structure TrackerState where
  activities : List (String × ℚ)
  current_activity : Option String
  last_check_time : ℚ
  idle_time : ℚ
  active_time : ℚ
  session_start : ℚ
  daily_logs : List LogEvent
deriving DecidableEq

/-- Reading `activities[app]` from the `defaultdict(float)`: the stored
value when the key is present, `0` otherwise. -/
def lookupAct : List (String × ℚ) → String → ℚ
  | [], _ => 0
  | (k, v) :: rest, app => if k = app then v else lookupAct rest app

/-- Embeds `self.activities[app_name] += delta` on the `defaultdict(float)`: adds
to the existing entry in place, or appends a fresh entry (created at `0`)
at the end, preserving insertion order. -/
def bumpActivity : List (String × ℚ) → String → ℚ → List (String × ℚ)
  | [], app, d => [(app, d)]
  | (k, v) :: rest, app, d =>
      if k = app then (k, v + d) :: rest else (k, v) :: bumpActivity rest app d

/-- Embeds `sum(self.activities.values())`. -/
def sumActs (acts : List (String × ℚ)) : ℚ := (acts.map Prod.snd).sum

/-- Embeds `ActivityTracker.track_activity`, with the sampled window
(`get_active_window()` result, `None` when undeterminable) and the clock
reading `time.time()` passed explicitly.  Computes the delta since
`last_check_time`, clamps it at `0`, credits it to the active or idle
totals, logs an application switch, and advances `last_check_time`. -/
def track_activity (s : TrackerState) (window_info : Option (String × String))
    (now : ℚ) : TrackerState :=
  let time_delta := now - s.last_check_time
  let time_delta := if time_delta < 0 then 0 else time_delta
  match window_info with
  | some (app_name, window_title) =>
      let s1 := { s with
        activities := bumpActivity s.activities app_name time_delta,
        active_time := s.active_time + time_delta }
      let s2 :=
        if s1.current_activity ≠ some app_name then
          { s1 with
            daily_logs := s1.daily_logs ++
              [{ timestamp := now, app_name := app_name,
                 window_title := window_title, action := "switched_to" }],
            current_activity := some app_name }
        else s1
      { s2 with last_check_time := now }
  | none =>
      { s with idle_time := s.idle_time + time_delta, last_check_time := now }

/-- A fresh `ActivityTracker()` when no data file exists: `load_data` finds
nothing and the `__init__` defaults stand, with both clock fields at the
construction time `t0`. -/
def initState (t0 : ℚ) : TrackerState :=
  { activities := []
    current_activity := none
    last_check_time := t0
    idle_time := 0
    active_time := 0
    session_start := t0
    daily_logs := [] }

/-- A sequence of `track_activity` calls, each given its sampled window and
clock reading. -/
def runSamples (s : TrackerState)
    (samples : List (Option (String × String) × ℚ)) : TrackerState :=
  samples.foldl (fun st p => track_activity st p.1 p.2) s

/-- The relation of `sorted(self.activities.items(), key=lambda x: x[1],
reverse=True)`: descending by accumulated duration.  A stable sort under
this relation breaks ties by first-seen (insertion) order, exactly as
CPython's stable `sorted` does. -/
def actLe (a b : String × ℚ) : Prop := b.2 ≤ a.2

instance : DecidableRel actLe := fun a b => inferInstanceAs (Decidable (b.2 ≤ a.2))

instance : IsTotal (String × ℚ) actLe := ⟨fun a b => le_total b.2 a.2⟩

instance : IsTrans (String × ℚ) actLe := ⟨fun _ _ _ h1 h2 => le_trans h2 h1⟩

/-- Embeds `ActivityTracker.get_top_apps`: the activities stably sorted by
descending duration, truncated to the first `n`. -/
def get_top_apps (activities : List (String × ℚ)) (n : Nat := 5) :
    List (String × ℚ) :=
  (activities.insertionSort actLe).take n

/-- The dict returned by `ActivityTracker.get_statistics`. -/
structure Stats where
  total_time : ℚ
  active_time : ℚ
  idle_time : ℚ
  activities : List (String × ℚ)
  top_apps : List (String × ℚ)

/-- Embeds `ActivityTracker.get_statistics` at clock reading `now`. -/
def get_statistics (s : TrackerState) (now : ℚ) : Stats :=
  { total_time := max 1 (now - s.session_start)
    active_time := s.active_time
    idle_time := s.idle_time
    activities := s.activities
    top_apps := get_top_apps s.activities 5 }

/-- The JSON object written by `ActivityTracker.save_data` (the `data`
dict; the file round-trips it verbatim). -/
structure SavedData where
  activities : List (String × ℚ)
  idle_time : ℚ
  active_time : ℚ
  session_start : ℚ
  daily_logs : List LogEvent
deriving DecidableEq

/-- Embeds `ActivityTracker.save_data`: serializes the state, keeping only the
last 1000 log entries (`self.daily_logs[-1000:]`, i.e. dropping
`length - 1000` from the front). -/
def save_data (s : TrackerState) : SavedData :=
  { activities := s.activities
    idle_time := s.idle_time
    active_time := s.active_time
    session_start := s.session_start
    daily_logs := s.daily_logs.drop (s.daily_logs.length - 1000) }

/-- Embeds `ActivityTracker.load_data`: with no readable file the state is left
unchanged; otherwise the five stored fields overwrite the state
(`session_start` defaulting to the current value is irrelevant here since
`save_data` always writes it). -/
def load_data (s : TrackerState) (file : Option SavedData) : TrackerState :=
  match file with
  | none => s
  | some d =>
      { s with
        activities := d.activities
        idle_time := d.idle_time
        active_time := d.active_time
        daily_logs := d.daily_logs
        session_start := d.session_start }

/-- Embeds `ActivityTracker.clear_data` at clock reading `now`: empties all
accumulators and the log, restarts the session, and immediately calls
`save_data`; the written snapshot is returned alongside the new state. -/
def clear_data (s : TrackerState) (now : ℚ) : TrackerState × SavedData :=
  let s1 := { s with
    activities := []
    idle_time := 0
    active_time := 0
    session_start := now
    daily_logs := [] }
  (s1, save_data s1)

/-- A JSON scalar as stored in the settings file: the shapes the nine
default settings use. -/
inductive SVal where
  | b (v : Bool)
  | i (v : Int)
  | q (v : ℚ)
  | s (v : String)
deriving DecidableEq

/-- Whether two settings values have the same shape (type). -/
def sameShape : SVal → SVal → Bool
  | SVal.b _, SVal.b _ => true
  | SVal.i _, SVal.i _ => true
  | SVal.q _, SVal.q _ => true
  | SVal.s _, SVal.s _ => true
  | _, _ => false

/-- Embeds `SettingsManager.default_settings`. -/
def default_settings : List (String × SVal) :=
  [("reminders_enabled", SVal.b true),
   ("break_reminder_enabled", SVal.b true),
   ("break_interval", SVal.i 30),
   ("app_usage_warnings", SVal.b true),
   ("entertainment_threshold", SVal.q 2),
   ("idle_warning_enabled", SVal.b true),
   ("idle_threshold", SVal.i 15),
   ("tracking_interval", SVal.i 5),
   ("popup_interval", SVal.i 30)]

/-- Dictionary lookup (`dict.get`), first occurrence wins, mirroring a
Python dict whose keys are unique. -/
def getS : List (String × SVal) → String → Option SVal
  | [], _ => none
  | (k, v) :: rest, key => if k = key then some v else getS rest key

/-- One step of `dict.update`: assign `key -> v`, replacing an existing
entry in place or appending a new one at the end (Python dict keys are
unique, so replacing the first occurrence is dict assignment). -/
def updEntry : List (String × SVal) → String → SVal → List (String × SVal)
  | [], key, v => [(key, v)]
  | (k, w) :: rest, key, v =>
      if k = key then (key, v) :: rest else (k, w) :: updEntry rest key v

/-- Embeds `merged.update(loaded)`: assign every loaded pair, left to right. -/
def dictUpdate (m : List (String × SVal)) :
    List (String × SVal) → List (String × SVal)
  | [] => m
  | (k, v) :: rest => dictUpdate (updEntry m k v) rest

/-- Embeds `SettingsManager.load_settings` with the parsed file contents passed
explicitly (`none` when the file is missing or unreadable): copies the
defaults and runs `merged.update(loaded)` over them, falling back to a
plain copy of the defaults otherwise.  No per-key shape validation is
performed. -/
def load_settings (loaded : Option (List (String × SVal))) :
    List (String × SVal) :=
  match loaded with
  | some l => dictUpdate default_settings l
  | none => default_settings

/-- The typed settings values `PopupManager.check_and_show_reminders`
reads through `get_setting`. -/
structure PSettings where
  reminders_enabled : Bool
  break_reminder_enabled : Bool
  break_interval : ℚ
  app_usage_warnings : Bool
  entertainment_threshold : ℚ
  idle_warning_enabled : Bool
  idle_threshold : ℚ

/-- Holds when the character list `n` starts the list `h`
(Python `h.startswith(n)`), used to build substring containment. -/
def leadMatch : List Char → List Char → Bool
  | [], _ => true
  | _ :: _, [] => false
  | a :: as, b :: bs => a == b && leadMatch as bs

/-- Holds when the character list `n` occurs contiguously in `h`
(Python `n in h`). -/
def hasSub (n : List Char) : List Char → Bool
  | [] => leadMatch n []
  | c :: t => leadMatch n (c :: t) || hasSub n t

/-- Embeds `PopupManager.entertainment_keywords`. -/
def entertainment_keywords : List String :=
  ["chrome", "firefox", "discord", "steam", "spotify", "youtube", "netflix", "edge"]

/-- Embeds `any(keyword in app.lower() for keyword in self.entertainment_keywords)`. -/
def isEntertainmentApp (app : String) : Bool :=
  entertainment_keywords.any (fun kw => hasSub kw.data app.toLower.data)

/-- A reminder surfaced by `check_and_show_reminders` (each popup shown). -/
inductive Reminder where
  | breakReminder (work_minutes : ℚ)
  | usageAlert (app : String) (hours : ℚ)
  | idleAlert (minutes : ℚ)
deriving DecidableEq

/-- Whether a reminder is the break reminder. -/
def isBreakEv : Reminder → Bool
  | Reminder.breakReminder _ => true
  | _ => false

/-- Number of break-reminder events in an emitted sequence. -/
def breakCount (evs : List Reminder) : Nat := (evs.filter isBreakEv).length

/-- Embeds `PopupManager.snooze_break`: advances `next_break_time` to
`time.time() + seconds`. -/
def snooze_break (now : ℚ) (seconds : ℚ := 300) : ℚ := now + seconds

/-- Embeds `PopupManager.check_and_show_reminders`, with `time.time()` passed as
`now`, the user's answer to the snooze dialog passed as `snoozeAnswer`,
and the `next_break_time` field threaded explicitly.  Returns the emitted
reminders in order (break, then usage alerts in activity order, then
idle) together with the updated `next_break_time`. -/
def check_and_show_reminders (settings : PSettings) (stats : Stats) (now : ℚ)
    (snoozeAnswer : Bool) (next_break_time : ℚ) : List Reminder × ℚ :=
  if settings.reminders_enabled then
    let work_minutes := stats.active_time / 60
    let break_interval := settings.break_interval
    let breakPart : List Reminder × ℚ :=
      if settings.break_reminder_enabled then
        if break_interval ≤ work_minutes ∧ next_break_time ≤ now then
          ([Reminder.breakReminder work_minutes],
           if snoozeAnswer then snooze_break now 300
           else now + break_interval * 60)
        else ([], next_break_time)
      else ([], next_break_time)
    let usageEvents : List Reminder :=
      if settings.app_usage_warnings then
        (stats.activities.filter (fun p =>
            isEntertainmentApp p.1 &&
              decide (settings.entertainment_threshold < p.2 / 3600))).map
          (fun p => Reminder.usageAlert p.1 (p.2 / 3600))
      else []
    let idleEvents : List Reminder :=
      if settings.idle_warning_enabled ∧ settings.idle_threshold < stats.idle_time / 60 then
        [Reminder.idleAlert (stats.idle_time / 60)]
      else []
    (breakPart.1 ++ usageEvents ++ idleEvents, breakPart.2)
  else ([], next_break_time)

/-- Application name for the i-th sample of an alternating run: two
distinct applications taken in turns, so every sample is a switch. -/
def altApp (i : Nat) : String := if i % 2 = 0 then "a" else "b"

/-- Builds `n` determinable samples alternating between two applications, all at
clock reading `0`. -/
def altSamples (n : Nat) : List (Option (String × String) × ℚ) :=
  (List.range n).map (fun i => (some (altApp i, "w"), 0))

/-- A fixed log entry used to build concrete states. -/
def ev0 : LogEvent :=
  { timestamp := 0, app_name := "a", window_title := "w", action := "switched_to" }

/-- A concrete tracker state whose in-memory log holds 1001 entries. -/
def bigLogState : TrackerState :=
  { activities := [("a", 1)]
    current_activity := some "a"
    last_check_time := 0
    idle_time := 0
    active_time := 1
    session_start := 0
    daily_logs := List.replicate 1001 ev0 }

/-- A small concrete tracker state used to instantiate theorems with
hypotheses. -/
def smallState : TrackerState :=
  { activities := [("a", 3), ("b", 2)]
    current_activity := some "a"
    last_check_time := 10
    idle_time := 4
    active_time := 5
    session_start := 0
    daily_logs := [ev0] }

/-- A concrete loaded settings file that omits `idle_threshold` and
changes every other key. -/
def loadedNoIdle : List (String × SVal) :=
  [("reminders_enabled", SVal.b false),
   ("break_reminder_enabled", SVal.b false),
   ("break_interval", SVal.i 45),
   ("app_usage_warnings", SVal.b false),
   ("entertainment_threshold", SVal.q 3),
   ("idle_warning_enabled", SVal.b false),
   ("tracking_interval", SVal.i 7),
   ("popup_interval", SVal.i 10)]

/-- Concrete popup settings with every rule enabled and the default
thresholds. -/
def enabledSettings : PSettings :=
  { reminders_enabled := true
    break_reminder_enabled := true
    break_interval := 30
    app_usage_warnings := true
    entertainment_threshold := 2
    idle_warning_enabled := true
    idle_threshold := 15 }

/-- Concrete statistics with 1900 active seconds and nothing else. -/
def activeStats : Stats :=
  { total_time := 2000
    active_time := 1900
    idle_time := 0
    activities := []
    top_apps := [] }

/-- The invariant of claim C1: the active total equals the sum of the
per-application durations. -/
def activeInv (s : TrackerState) : Prop := s.active_time = sumActs s.activities

/-- The claim of C3 exactly as stated: the three listed conditions alone
force exactly one break-reminder event. -/
def breakClaimAsStated : Prop :=
  ∀ (settings : PSettings) (stats : Stats) (now next ans : _),
    settings.break_reminder_enabled = true →
    next ≤ now →
    settings.break_interval ≤ stats.active_time / 60 →
    breakCount (check_and_show_reminders settings stats now ans next).1 = 1

/-- The claim of C7 exactly as stated: the default value wins for every
key that is absent from the loaded file or bound there to a value of the
wrong shape. -/
def settingsClaimAsStated : Prop :=
  ∀ (loaded : List (String × SVal)) (key : String) (dv : SVal),
    getS default_settings key = some dv →
    (getS loaded key = none ∨
      ∃ lv, getS loaded key = some lv ∧ sameShape dv lv = false) →
    getS (load_settings (some loaded)) key = some dv

/-! ### Helper lemmas -/

theorem sumActs_bump (acts : List (String × ℚ)) (app : String) (d : ℚ) :
    sumActs (bumpActivity acts app d) = sumActs acts + d := by
  induction acts with
  | nil => simp [bumpActivity, sumActs]
  | cons p rest ih =>
      obtain ⟨k, v⟩ := p
      by_cases h : k = app
      · simp [bumpActivity, h, sumActs]
        ring
      · simp [bumpActivity, h, sumActs] at ih ⊢
        linarith

theorem lookupAct_bump_zero (acts : List (String × ℚ)) (app a : String) :
    lookupAct (bumpActivity acts app 0) a = lookupAct acts a := by
  induction acts with
  | nil => simp [bumpActivity, lookupAct]
  | cons p rest ih =>
      obtain ⟨k, v⟩ := p
      by_cases h : k = app
      · simp [bumpActivity, h, lookupAct]
      · simp [bumpActivity, h, lookupAct, ih]

theorem activeInv_track (s : TrackerState) (obs : Option (String × String))
    (now : ℚ) (h : activeInv s) : activeInv (track_activity s obs now) := by
  unfold activeInv at h ⊢
  match obs with
  | none => simpa [track_activity] using h
  | some (app, title) =>
      simp only [track_activity]
      split <;> simp [sumActs_bump, h]

theorem activeInv_run (s : TrackerState)
    (samples : List (Option (String × String) × ℚ)) (h : activeInv s) :
    activeInv (runSamples s samples) := by
  induction samples generalizing s with
  | nil => simpa [runSamples] using h
  | cons p rest ih =>
      have h1 : activeInv (track_activity s p.1 p.2) := activeInv_track s p.1 p.2 h
      simpa [runSamples] using ih (track_activity s p.1 p.2) h1

theorem runSamples_append (s : TrackerState)
    (l1 l2 : List (Option (String × String) × ℚ)) :
    runSamples s (l1 ++ l2) = runSamples (runSamples s l1) l2 := by
  simp [runSamples, List.foldl_append]

theorem altApp_succ_ne (k : Nat) : altApp k ≠ altApp (k + 1) := by
  unfold altApp
  rcases Nat.mod_two_eq_zero_or_one k with h | h
  · have h2 : (k + 1) % 2 = 1 := by omega
    simp [h, h2]
  · have h2 : (k + 1) % 2 = 0 := by omega
    simp [h, h2]

theorem alt_run (n : Nat) :
    (runSamples (initState 0) (altSamples n)).daily_logs.length = n ∧
    (runSamples (initState 0) (altSamples n)).current_activity =
      (if n = 0 then none else some (altApp (n - 1))) := by
  induction n with
  | zero => simp [runSamples, altSamples, initState]
  | succ m ih =>
      have hsplit : altSamples (m + 1) =
          altSamples m ++ [(some (altApp m, "w"), 0)] := by
        simp [altSamples, List.range_succ]
      rw [hsplit, runSamples_append]
      have hstep :
          runSamples (runSamples (initState 0) (altSamples m))
              [(some (altApp m, "w"), 0)] =
            track_activity (runSamples (initState 0) (altSamples m))
              (some (altApp m, "w")) 0 := by
        simp [runSamples]
      rw [hstep]
      have hne : (runSamples (initState 0) (altSamples m)).current_activity ≠
          some (altApp m) := by
        rw [ih.2]
        rcases Nat.eq_zero_or_pos m with hm | hm
        · simp [hm]
        · have hm' : m ≠ 0 := Nat.pos_iff_ne_zero.mp hm
          simp only [hm', if_false]
          intro hcontra
          have hk : m - 1 + 1 = m := by omega
          have h4 := altApp_succ_ne (m - 1)
          rw [hk] at h4
          exact h4 (Option.some.inj hcontra)
      constructor
      · simp [track_activity, hne, ih.1]
      · simp [track_activity, hne]

theorem save_data_logs (s : TrackerState) :
    (save_data s).daily_logs = s.daily_logs.drop (s.daily_logs.length - 1000) := by
  simp [save_data]

theorem load_data_some_logs (s : TrackerState) (d : SavedData) :
    (load_data s (some d)).daily_logs = d.daily_logs := rfl

theorem breakCount_nil : breakCount [] = 0 := rfl

theorem breakCount_append (a b : List Reminder) :
    breakCount (a ++ b) = breakCount a + breakCount b := by
  simp [breakCount, List.filter_append]

theorem breakCount_break_singleton (w : ℚ) :
    breakCount [Reminder.breakReminder w] = 1 := rfl

theorem breakCount_usage_map (l : List (String × ℚ)) :
    breakCount (l.map fun p => Reminder.usageAlert p.1 (p.2 / 3600)) = 0 := by
  induction l with
  | nil => rfl
  | cons p rest ih => simpa [breakCount, isBreakEv] using ih

theorem breakCount_idle_singleton (m : ℚ) :
    breakCount [Reminder.idleAlert m] = 0 := rfl

theorem getS_updEntry (m : List (String × SVal)) (k : String) (v : SVal)
    (k' : String) :
    getS (updEntry m k v) k' = if k = k' then some v else getS m k' := by
  induction m with
  | nil => by_cases h : k = k' <;> simp [updEntry, getS, h]
  | cons p rest ih =>
      obtain ⟨a, w⟩ := p
      by_cases h1 : a = k
      · subst h1
        by_cases h2 : a = k' <;> simp [updEntry, getS, h2]
      · by_cases h2 : a = k'
        · subst h2
          have h3 : ¬ (k = a) := fun hk => h1 hk.symm
          simp [updEntry, getS, h1, h3]
        · simp [updEntry, getS, h1, h2, ih]

theorem getS_eq_none (l : List (String × SVal)) (k : String) :
    getS l k = none ↔ ∀ p ∈ l, p.1 ≠ k := by
  induction l with
  | nil => simp [getS]
  | cons p rest ih =>
      obtain ⟨a, w⟩ := p
      by_cases h : a = k <;> simp [getS, h, ih]

theorem getS_dictUpdate_absent (m l : List (String × SVal)) (k : String)
    (h : ∀ p ∈ l, p.1 ≠ k) :
    getS (dictUpdate m l) k = getS m k := by
  induction l generalizing m with
  | nil => rfl
  | cons p rest ih =>
      obtain ⟨a, w⟩ := p
      have ha : a ≠ k := h (a, w) (List.mem_cons_self _ _)
      rw [show dictUpdate m ((a, w) :: rest) = dictUpdate (updEntry m a w) rest
            from rfl,
          ih (updEntry m a w) (fun p hp => h p (List.mem_cons_of_mem _ hp)),
          getS_updEntry]
      simp [ha]

theorem getS_dictUpdate_present (l : List (String × SVal)) (k : String)
    (v : SVal) :
    (l.map Prod.fst).Nodup → getS l k = some v →
    ∀ m, getS (dictUpdate m l) k = some v := by
  induction l with
  | nil => intro _ hget; simp [getS] at hget
  | cons p rest ih =>
      intro hnd hget m
      obtain ⟨a, w⟩ := p
      rw [List.map_cons, List.nodup_cons] at hnd
      by_cases h1 : a = k
      · subst h1
        have hw : w = v := by simpa [getS] using hget
        subst hw
        have habs : ∀ q ∈ rest, q.1 ≠ a := by
          intro q hq hcontra
          have hmem : q.1 ∈ rest.map Prod.fst := List.mem_map_of_mem Prod.fst hq
          rw [hcontra] at hmem
          exact hnd.1 hmem
        rw [show dictUpdate m ((a, w) :: rest) = dictUpdate (updEntry m a w) rest
              from rfl,
            getS_dictUpdate_absent _ _ _ habs, getS_updEntry]
        simp
      · have hget' : getS rest k = some v := by simpa [getS, h1] using hget
        exact ih hnd.2 hget' (updEntry m a w)

/-! ### Claim theorems -/

/-- C1: for every sequence of `track_activity` calls applied to a freshly
initialized or reset tracker, after each call the active total equals the
sum of all per-application durations. -/
theorem c1_active_eq_sum :
    (∀ (t0 : ℚ) (samples : List (Option (String × String) × ℚ)),
        activeInv (runSamples (initState t0) samples)) ∧
    (∀ (s : TrackerState) (now : ℚ)
        (samples : List (Option (String × String) × ℚ)),
        activeInv (runSamples (clear_data s now).1 samples)) := by
  constructor
  · intro t0 samples
    exact activeInv_run _ _ (by simp [activeInv, initState, sumActs])
  · intro s now samples
    exact activeInv_run _ _ (by simp [activeInv, clear_data, sumActs])

/-- C2 counterexample: the in-memory `daily_logs` is never truncated by
`track_activity`; a run of 1001 switching samples leaves 1001 entries in
the in-memory log, exceeding the claimed 1000 bound. -/
theorem c2_counterexample :
    1000 < (runSamples (initState 0) (altSamples 1001)).daily_logs.length := by
  rw [(alt_run 1001).1]
  norm_num

/-- C2 amended: only the persisted copy of the event log is bounded:
`save_data` writes exactly the last 1000 entries of the in-memory log
(dropping the oldest beyond that), so the persisted log never exceeds
1000 entries and is a suffix of the in-memory log, keeping the newest
entries in their original relative order. -/
theorem c2_saved_log_bounded (s : TrackerState) :
    (save_data s).daily_logs = s.daily_logs.drop (s.daily_logs.length - 1000) ∧
    (save_data s).daily_logs.length ≤ 1000 ∧
    List.IsSuffix (save_data s).daily_logs s.daily_logs := by
  refine ⟨save_data_logs s, ?_, ?_⟩
  · have h := List.length_drop (s.daily_logs.length - 1000) s.daily_logs
    simp only [save_data] at h ⊢
    omega
  · simpa [save_data] using List.drop_suffix (s.daily_logs.length - 1000) s.daily_logs

/-- C3 counterexample: the three conditions listed in the claim do not
suffice — with the global `reminders_enabled` switched off,
`check_and_show_reminders` returns early and emits no break event even
though `break_reminder_enabled`, the active-minutes condition, and the
eligibility time all hold. -/
theorem c3_counterexample : ¬ breakClaimAsStated := by
  intro h
  have h2 := h { enabledSettings with reminders_enabled := false } activeStats
    10000 0 false rfl (by norm_num)
    (by show (30:ℚ) ≤ 1900 / 60; norm_num)
  simp [check_and_show_reminders, enabledSettings, breakCount] at h2

/-- C3 amended: whenever `remindersEnabled` also holds in addition to
`now ≥ nextBreakEligibleTime`, `activeSeconds/60 ≥ breakIntervalMinutes`,
and `breakReminderEnabled`, the evaluation emits exactly one
break-reminder event; resolving it as snoozed sets
`nextBreakEligibleTime = now + 300`, and resolving it as declined sets
`nextBreakEligibleTime = now + breakIntervalMinutes*60`. -/
theorem c3_break_reminder (settings : PSettings) (stats : Stats)
    (now next : ℚ) (ans : Bool)
    (hre : settings.reminders_enabled = true)
    (hbe : settings.break_reminder_enabled = true)
    (hnow : next ≤ now)
    (hact : settings.break_interval ≤ stats.active_time / 60) :
    breakCount (check_and_show_reminders settings stats now ans next).1 = 1 ∧
    (check_and_show_reminders settings stats now ans next).2 =
      (if ans then now + 300 else now + settings.break_interval * 60) := by
  constructor
  · simp only [check_and_show_reminders, hre, if_true, hbe, if_pos (And.intro hact hnow)]
    rw [breakCount_append, breakCount_append, breakCount_break_singleton]
    have hu : breakCount (if settings.app_usage_warnings = true then
        (stats.activities.filter (fun p =>
          isEntertainmentApp p.1 &&
            decide (settings.entertainment_threshold < p.2 / 3600))).map
          (fun p => Reminder.usageAlert p.1 (p.2 / 3600))
      else []) = 0 := by
      split
      · exact breakCount_usage_map _
      · rfl
    have hi : breakCount (if settings.idle_warning_enabled = true ∧
        settings.idle_threshold < stats.idle_time / 60 then
        [Reminder.idleAlert (stats.idle_time / 60)] else []) = 0 := by
      split
      · exact breakCount_idle_singleton _
      · rfl
    rw [hu, hi]
  · simp only [check_and_show_reminders, hre, if_true, hbe, if_pos (And.intro hact hnow)]
    by_cases hans : ans = true
    · simp [hans, snooze_break]
    · simp only [Bool.not_eq_true] at hans
      simp [hans]

/-- C3 witness: at the spec's own numbers (interval 30 minutes, 1900
active seconds, eligibility time 0 ≤ now = 10000) exactly one break event
fires, snoozing yields 10300 and declining yields 11800. -/
theorem c3_witness :
    breakCount (check_and_show_reminders enabledSettings activeStats 10000 true 0).1 = 1 ∧
    (check_and_show_reminders enabledSettings activeStats 10000 true 0).2 = 10300 ∧
    (check_and_show_reminders enabledSettings activeStats 10000 false 0).2 = 11800 := by
  have h1 := c3_break_reminder enabledSettings activeStats 10000 0 true rfl rfl
    (by norm_num) (by show (30:ℚ) ≤ 1900 / 60; norm_num)
  have h2 := c3_break_reminder enabledSettings activeStats 10000 0 false rfl rfl
    (by norm_num) (by show (30:ℚ) ≤ 1900 / 60; norm_num)
  refine ⟨h1.1, ?_, ?_⟩
  · rw [h1.2]; norm_num
  · rw [h2.2]; show (10000:ℚ) + 30 * 60 = 11800; norm_num

/-- C4: a sample whose clock reading is earlier than `last_check_time`
clamps the contributed delta to zero — the active total, the idle total
and every per-application duration are unchanged — while
`last_check_time` still advances to `now`. -/
theorem c4_negative_delta_clamped (s : TrackerState)
    (obs : Option (String × String)) (now : ℚ)
    (h : now < s.last_check_time) :
    (track_activity s obs now).active_time = s.active_time ∧
    (track_activity s obs now).idle_time = s.idle_time ∧
    (∀ app, lookupAct (track_activity s obs now).activities app =
      lookupAct s.activities app) ∧
    (track_activity s obs now).last_check_time = now := by
  have hd : now - s.last_check_time < 0 := by linarith
  match obs with
  | none => simp [track_activity, hd]
  | some (app, title) =>
      by_cases hc : s.current_activity = some app <;>
        simp [track_activity, hd, hc, lookupAct_bump_zero]

/-- C4 witness: a concrete backward clock step leaves the accumulated
totals untouched and advances the sample clock. -/
theorem c4_witness :
    ((5:ℚ) < smallState.last_check_time) ∧
    (track_activity smallState (some ("c", "t")) 5).active_time =
      smallState.active_time ∧
    (track_activity smallState (some ("c", "t")) 5).last_check_time = 5 := by
  have h := c4_negative_delta_clamped smallState (some ("c", "t")) 5
    (by norm_num [smallState])
  exact ⟨by norm_num [smallState], h.1, h.2.2.2⟩

/-- C5: a determinable sample of the application already current appends
no event; a determinable sample of a different application appends
exactly one event with action `switched_to` and makes that application
current. -/
theorem c5_switch_event (s : TrackerState) (app title : String) (now : ℚ) :
    (s.current_activity = some app →
      (track_activity s (some (app, title)) now).daily_logs = s.daily_logs ∧
      (track_activity s (some (app, title)) now).current_activity =
        s.current_activity) ∧
    (s.current_activity ≠ some app →
      (track_activity s (some (app, title)) now).daily_logs =
        s.daily_logs ++
          [{ timestamp := now, app_name := app, window_title := title,
             action := "switched_to" }] ∧
      (track_activity s (some (app, title)) now).current_activity = some app) := by
  constructor
  · intro h
    simp [track_activity, h]
  · intro h
    simp [track_activity, h]

/-- C5 witness: sampling the current application appends nothing;
sampling a different one appends the single switch event. -/
theorem c5_witness :
    (track_activity smallState (some ("a", "t")) 11).daily_logs =
      smallState.daily_logs ∧
    (track_activity smallState (some ("b", "t")) 11).daily_logs =
      smallState.daily_logs ++
        [{ timestamp := 11, app_name := "b", window_title := "t",
           action := "switched_to" }] := by
  refine ⟨((c5_switch_event smallState "a" "t" 11).1 rfl).1, ?_⟩
  exact ((c5_switch_event smallState "b" "t" 11).2 (by decide)).1

/-- C6: the top-K list is the stable descending sort of the activities
truncated to K — it is sorted by descending duration, a permutation of
the activities, any duration-sorted subsequence of the input (in
particular any tied pair in first-seen order) survives in order, the
statistics snapshot exposes it with K = 5, and on
{A:100, B:100, C:50} observed in that order `top 2 = [A, B]`. -/
theorem c6_top_apps (acts c : List (String × ℚ)) (n : Nat)
    (hc : c.Sublist acts) (hp : c.Pairwise actLe) :
    (get_top_apps acts n).Pairwise actLe ∧
    (acts.insertionSort actLe).Perm acts ∧
    c.Sublist (acts.insertionSort actLe) ∧
    (∀ (s : TrackerState) (now : ℚ),
      (get_statistics s now).top_apps = get_top_apps s.activities 5) ∧
    get_top_apps [("A", (100:ℚ)), ("B", 100), ("C", 50)] 2 =
      [("A", 100), ("B", 100)] := by
  refine ⟨?_, List.perm_insertionSort actLe acts,
    List.sublist_insertionSort hp hc, fun s now => rfl, by decide⟩
  exact List.Pairwise.sublist (List.take_sublist n _)
    (List.sorted_insertionSort actLe acts)

/-- C6 witness: instantiated at the spec's tie-breaking example. -/
theorem c6_witness :
    get_top_apps [("A", (100:ℚ)), ("B", 100), ("C", 50)] 2 =
      [("A", 100), ("B", 100)] ∧
    [("A", (100:ℚ)), ("C", 50)].Sublist
      ((([("A", (100:ℚ)), ("B", 100), ("C", 50)] : List (String × ℚ))).insertionSort actLe) := by
  have h := c6_top_apps [("A", (100:ℚ)), ("B", 100), ("C", 50)]
    [("A", 100), ("C", 50)] 2 (by decide) (by decide)
  exact ⟨h.2.2.2.2, h.2.2.1⟩

/-- C7 counterexample: `load_settings` does no shape validation — a
loaded `idle_threshold` bound to a string overrides the integer default
15 instead of losing to it. -/
theorem c7_counterexample : ¬ settingsClaimAsStated := by
  intro h
  have h2 := h [("idle_threshold", SVal.s "x")] "idle_threshold" (SVal.i 15)
    (by decide) (Or.inr ⟨SVal.s "x", by decide, by decide⟩)
  revert h2
  decide

/-- C7 amended: the merge lets the default win exactly for keys absent
from the loaded file, while every key present in the loaded file keeps
its loaded value regardless of shape; in particular a file missing
`idle_threshold` yields the default 15 for that key while every other
loaded value is preserved. -/
theorem c7_settings_merge (loaded : List (String × SVal)) (key : String)
    (hnd : (loaded.map Prod.fst).Nodup) :
    (getS loaded key = none →
      getS (load_settings (some loaded)) key = getS default_settings key) ∧
    (∀ v, getS loaded key = some v →
      getS (load_settings (some loaded)) key = some v) := by
  constructor
  · intro h
    exact getS_dictUpdate_absent _ _ _ ((getS_eq_none _ _).1 h)
  · intro v h
    exact getS_dictUpdate_present _ _ _ hnd h _

/-- C7 witness: loading a file that omits `idle_threshold` and changes
every other key yields the default 15 for the missing key and keeps the
loaded 45-minute break interval. -/
theorem c7_witness :
    getS (load_settings (some loadedNoIdle)) "idle_threshold" = some (SVal.i 15) ∧
    getS (load_settings (some loadedNoIdle)) "break_interval" = some (SVal.i 45) := by
  constructor
  · have h := (c7_settings_merge loadedNoIdle "idle_threshold" (by decide)).1 (by decide)
    rw [h]
    decide
  · exact (c7_settings_merge loadedNoIdle "break_interval" (by decide)).2
      (SVal.i 45) (by decide)

/-- C8 counterexample: save-then-load is not the identity on every state:
with 1001 in-memory log entries the reloaded log has only 1000. -/
theorem c8_counterexample :
    (load_data bigLogState (some (save_data bigLogState))).daily_logs ≠
      bigLogState.daily_logs := by
  intro h
  have h2 := congrArg List.length h
  rw [load_data_some_logs, save_data_logs, List.length_drop] at h2
  have hlen : bigLogState.daily_logs.length = 1001 := by
    rw [show bigLogState.daily_logs = List.replicate 1001 ev0 from rfl,
      List.length_replicate]
  rw [hlen] at h2
  omega

/-- C8 amended: for every state whose event log holds at most 1000
entries, saving and reloading reproduces the activities mapping, the idle
and active totals, the session start, and the event log in order. -/
theorem c8_round_trip (s : TrackerState) (h : s.daily_logs.length ≤ 1000) :
    (load_data s (some (save_data s))).activities = s.activities ∧
    (load_data s (some (save_data s))).idle_time = s.idle_time ∧
    (load_data s (some (save_data s))).active_time = s.active_time ∧
    (load_data s (some (save_data s))).session_start = s.session_start ∧
    (load_data s (some (save_data s))).daily_logs = s.daily_logs := by
  have h0 : s.daily_logs.length - 1000 = 0 := Nat.sub_eq_zero_of_le h
  simp [load_data, save_data, h0]

/-- C8 witness: round trip at a small concrete state. -/
theorem c8_witness :
    (load_data smallState (some (save_data smallState))).daily_logs =
      smallState.daily_logs :=
  (c8_round_trip smallState (by norm_num [smallState])).2.2.2.2

/-- C9: `clear_data` empties the activities, zeroes both totals, empties
the event log, restarts the session at `now`, immediately persists
exactly the cleared state, and is idempotent at the same `now`. -/
theorem c9_clear (s : TrackerState) (now : ℚ) :
    (clear_data s now).1.activities = [] ∧
    (clear_data s now).1.active_time = 0 ∧
    (clear_data s now).1.idle_time = 0 ∧
    (clear_data s now).1.daily_logs = [] ∧
    (clear_data s now).1.session_start = now ∧
    (clear_data s now).2 = save_data (clear_data s now).1 ∧
    clear_data (clear_data s now).1 now = clear_data s now := by
  exact ⟨rfl, rfl, rfl, rfl, rfl, rfl, rfl⟩

/-- C10: `clear_data` leaves `current_activity` and `last_check_time`
unchanged, so the first determinable sample of the previously current
application after a clear appends no switch event to the now-empty
log. -/
theorem c10_clear_frame (s : TrackerState) (now now2 : ℚ)
    (app title : String) (h : s.current_activity = some app) :
    (clear_data s now).1.current_activity = s.current_activity ∧
    (clear_data s now).1.last_check_time = s.last_check_time ∧
    (track_activity (clear_data s now).1 (some (app, title)) now2).daily_logs = [] := by
  refine ⟨rfl, rfl, ?_⟩
  simp [track_activity, clear_data, h]

/-- C10 witness: after clearing a state whose current application is
`a`, a fresh sample of `a` leaves the log empty. -/
theorem c10_witness :
    (track_activity (clear_data smallState 20).1 (some ("a", "t")) 21).daily_logs = [] :=
  (c10_clear_frame smallState 20 21 "a" "t" rfl).2.2
